import Mathlib

/-!
Shallow embedding of the matching / reconciliation engine of `abs_ratings.py`
(the most evolved variant of the script), together with proofs settling the
frozen claims about it.

Modelling conventions:
* Python strings are Lean `String`s; character-level scanning is done on
  `List Char`.  Python's `str.lower` is modelled for ASCII (the evaluated
  inputs are ASCII; the only non-ASCII character appearing in a pattern,
  the u-umlaut of the German number word, is already lower case).
* Python `re` word characters (`\w`) are modelled as alphanumeric, `_`,
  or any code point above 127 (letters with diacritics); `\s` as the six
  ASCII whitespace characters; `\d` as ASCII digits.  Regex substitution
  scans left to right, replaces non-overlapping matches, and continues
  after each match - exactly what the fuelled drivers below implement.
* `difflib.SequenceMatcher(...).ratio()` is an opaque numeric similarity
  in the claims ("titleScore 0.95", "regardless of title similarity"), so
  it enters the embedding as an explicit function parameter `sim`; every
  concrete evaluation instantiates it with an explicit function.
* Machine floats of the source (rating values, durations) are modelled as
  rationals; HTTP and HTML access is modelled as explicit outcome values
  and parse oracles, since the claims are about control flow, not HTML.
-/

/-! ### Character-class helpers (Python `re` semantics) -/

/-- Python regex word character (`\w`): alphanumeric, underscore, or any
letter outside ASCII (diacritics). -/
def isWordChar (c : Char) : Bool :=
  c.isAlphanum || c == '_' || c.val > 127

/-- Python regex whitespace (`\s`). -/
def isSpaceChar (c : Char) : Bool :=
  c == ' ' || c == '\t' || c == '\n' || c == '\r' || c.val == 11 || c.val == 12

/-- ASCII lower-casing, modelling `str.lower` on the inputs considered. -/
def lowerChar (c : Char) : Char := c.toLower

/-- Lower-case a whole string (`str.lower`). -/
def pyLower (s : String) : String := String.mk (s.toList.map lowerChar)

/-- A word boundary `\b` immediately before a word character: start of the
string or a preceding non-word character. -/
def boundaryBefore (prev : Option Char) : Bool :=
  match prev with
  | none => true
  | some p => !(isWordChar p)

/-- A word boundary `\b` immediately after a word character: end of the
string or a following non-word character. -/
def boundaryAfterWord (rest : List Char) : Bool :=
  match rest with
  | [] => true
  | c :: _ => !(isWordChar c)

/-- Case-insensitive literal prefix match; returns the remainder on success.
The pattern is given lower case. -/
def matchLitCI : List Char → List Char → Option (List Char)
  | [], s => some s
  | _ :: _, [] => none
  | p :: ps, c :: cs => if lowerChar c == p then matchLitCI ps cs else none

/-- Case-sensitive literal prefix match; returns the remainder on success. -/
def matchLitCS : List Char → List Char → Option (List Char)
  | [], s => some s
  | _ :: _, [] => none
  | p :: ps, c :: cs => if c == p then matchLitCS ps cs else none

/-! ### Generic leftmost substitution driver

Models `re.sub`: scan left to right; at each position try the matcher (which
sees the previous original character for `\b` tests); on a match of length
`n ≥ 1` emit the replacement and continue after the match, remembering the
last matched character as the new "previous" character. -/

def reSubGo (matcher : Option Char → List Char → Option Nat) (repl : List Char) :
    Nat → Option Char → List Char → List Char
  | 0, _, s => s
  | _ + 1, _, [] => []
  | fuel + 1, prev, c :: rest =>
    match matcher prev (c :: rest) with
    | some n =>
      repl ++ reSubGo matcher repl fuel ((c :: rest).take n).getLast? ((c :: rest).drop n)
    | none => c :: reSubGo matcher repl fuel (some c) rest

/-- `re.sub(pattern, repl, s)` for patterns given by `matcher`. -/
def reSub (matcher : Option Char → List Char → Option Nat) (repl : List Char)
    (s : List Char) : List Char :=
  reSubGo matcher repl s.length none s

/-! ### `RE_CLEAN_TITLE`

`(?i)\b(unabridged|abridged|audiobook|graphic audio|dramatized adaptation)\b|[\(\[].*?[\)\]]`
-/

def cleanWordAlts : List (List Char) :=
  [String.toList "unabridged", String.toList "abridged", String.toList "audiobook",
   String.toList "graphic audio", String.toList "dramatized adaptation"]

/-- Try one case-insensitive word alternative with the surrounding `\b`s. -/
def tryWordAltCI (prev : Option Char) (alt : List Char) (s : List Char) : Option Nat :=
  if boundaryBefore prev then
    match matchLitCI alt s with
    | some rest => if boundaryAfterWord rest then some alt.length else none
    | none => none
  else none

/-- Non-greedy bracketed span `[\(\[].*?[\)\]]`: an opening bracket up to the
nearest closing bracket, with `.` not crossing a newline. -/
def findCloser : List Char → Nat → Option Nat
  | [], _ => none
  | c :: cs, n =>
    if c == ')' || c == ']' then some (n + 1)
    else if c == '\n' then none
    else findCloser cs (n + 1)

def bracketMatchLen (s : List Char) : Option Nat :=
  match s with
  | c :: rest => if c == '(' || c == '[' then findCloser rest 1 else none
  | [] => none

def cleanMatcher (prev : Option Char) (s : List Char) : Option Nat :=
  match cleanWordAlts.findSome? (fun alt => tryWordAltCI prev alt s) with
  | some n => some n
  | none => bracketMatchLen s

/-! ### Punctuation replacement and number words -/

/-- `re.sub(r'[:\-\(\)\[\]]', ' ', t)`. -/
def punctSub (s : List Char) : List Char :=
  s.map (fun c =>
    if c == ':' || c == '-' || c == '(' || c == ')' || c == '[' || c == ']' then ' ' else c)

/-- `NUMBER_MAP`, in source (insertion) order. -/
def numberPairs : List (List Char × List Char) :=
  [(String.toList "one", String.toList "1"), (String.toList "two", String.toList "2"),
   (String.toList "three", String.toList "3"), (String.toList "four", String.toList "4"),
   (String.toList "five", String.toList "5"), (String.toList "six", String.toList "6"),
   (String.toList "seven", String.toList "7"), (String.toList "eight", String.toList "8"),
   (String.toList "nine", String.toList "9"), (String.toList "ten", String.toList "10"),
   (String.toList "eins", String.toList "1"), (String.toList "zwei", String.toList "2"),
   (String.toList "drei", String.toList "3"), (String.toList "vier", String.toList "4"),
   (String.toList "fünf", String.toList "5"), (String.toList "sechs", String.toList "6"),
   (String.toList "sieben", String.toList "7"), (String.toList "acht", String.toList "8"),
   (String.toList "neun", String.toList "9"), (String.toList "zehn", String.toList "10")]

/-- Case-sensitive `\bword\b` matcher (the number-word substitutions are
compiled without `(?i)` and run on already lower-cased text). -/
def tryWordAltCS (prev : Option Char) (alt : List Char) (s : List Char) : Option Nat :=
  if boundaryBefore prev then
    match matchLitCS alt s with
    | some rest => if boundaryAfterWord rest then some alt.length else none
    | none => none
  else none

/-- The sequential loop `for word, digit in NUMBER_MAP.items(): t = re.sub(...)`. -/
def numberMapSub (s : List Char) : List Char :=
  numberPairs.foldl (fun t wd => reSub (fun prev u => tryWordAltCS prev wd.1 u) wd.2 t) s

/-! ### `RE_NOISE`

`(?i)\b(?:book|vol\.?|volume|part|no\.?|nr\.?|band|teil|buch|reihe|serie|series|episode|chapter|kapitel)\b`

The boolean marks an optional trailing dot (`\.?`, greedy): the dot is
consumed only when the trailing `\b` still holds after it, i.e. when a word
character follows the dot; otherwise the engine backtracks to the dotless
alternative, whose own trailing `\b` is then required. -/

def noiseAlts : List (List Char × Bool) :=
  [(String.toList "book", false), (String.toList "vol", true),
   (String.toList "volume", false), (String.toList "part", false),
   (String.toList "no", true), (String.toList "nr", true),
   (String.toList "band", false), (String.toList "teil", false),
   (String.toList "buch", false), (String.toList "reihe", false),
   (String.toList "serie", false), (String.toList "series", false),
   (String.toList "episode", false), (String.toList "chapter", false),
   (String.toList "kapitel", false)]

def tryNoiseAlt (prev : Option Char) (alt : List Char × Bool) (s : List Char) : Option Nat :=
  if boundaryBefore prev then
    match matchLitCI alt.1 s with
    | some rest =>
      if alt.2 then
        match rest with
        | '.' :: r2 =>
          match r2 with
          | c :: _ =>
            if isWordChar c then some (alt.1.length + 1)
            else if boundaryAfterWord rest then some alt.1.length else none
          | [] => if boundaryAfterWord rest then some alt.1.length else none
        | _ => if boundaryAfterWord rest then some alt.1.length else none
      else if boundaryAfterWord rest then some alt.1.length else none
    | none => none
  else none

def noiseMatcher (prev : Option Char) (s : List Char) : Option Nat :=
  noiseAlts.findSome? (fun alt => tryNoiseAlt prev alt s)

/-! ### Whitespace collapse and strip -/

def collapseWsAux : List Char → Bool → List Char
  | [], _ => []
  | c :: rest, inRun =>
    if isSpaceChar c then
      if inRun then collapseWsAux rest true else ' ' :: collapseWsAux rest true
    else c :: collapseWsAux rest false

/-- `re.sub(r'\s+', ' ', t)`. -/
def collapseWs (s : List Char) : List Char := collapseWsAux s false

/-- Python `str.strip()`. -/
def stripWs (s : List Char) : List Char :=
  ((s.dropWhile isSpaceChar).reverse.dropWhile isSpaceChar).reverse

/-! ### `normalize_title_text` (the comparison-variant normalizer) -/

def normalize_title_text (t : String) : String :=
  if t.isEmpty then "" else
  let s1 := reSub cleanMatcher [' '] t.toList
  let s2 := s1.map lowerChar
  let s3 := punctSub s2
  let s4 := numberMapSub s3
  let s5 := reSub noiseMatcher [] s4
  String.mk (stripWs (collapseWs s5))

/-! ### `extract_volume`

`RE_VOL = (?i)(?:\b(?:book|vol\.?|volume|part|no\.?)|#)\s*(\d+)`, `findall`
of the capture group, united with a bare trailing integer
`re.search(r'\b(\d+)$', text.strip())`. -/

def volAltMarkers : List (List Char × Bool) :=
  [(String.toList "book", false), (String.toList "vol", true),
   (String.toList "volume", false), (String.toList "part", false),
   (String.toList "no", true)]

/-- `\s*(\d+)`: optional whitespace then at least one digit (both greedy and
over disjoint character classes, hence deterministic).  Returns the consumed
length and the captured digits. -/
def trySpacesDigits (s : List Char) : Option (Nat × List Char) :=
  let sp := s.takeWhile isSpaceChar
  let rest := s.dropWhile isSpaceChar
  let ds := rest.takeWhile Char.isDigit
  if ds.isEmpty then none else some (sp.length + ds.length, ds)

/-- One word-marker alternative of `RE_VOL` (no trailing `\b` on the marker;
the greedy optional dot backtracks if digits do not follow). -/
def tryVolAlt (prev : Option Char) (alt : List Char × Bool) (s : List Char) :
    Option (Nat × List Char) :=
  if boundaryBefore prev then
    match matchLitCI alt.1 s with
    | some rest =>
      if alt.2 then
        match rest with
        | '.' :: r2 =>
          match trySpacesDigits r2 with
          | some nd => some (alt.1.length + 1 + nd.1, nd.2)
          | none =>
            match trySpacesDigits rest with
            | some nd => some (alt.1.length + nd.1, nd.2)
            | none => none
        | _ =>
          match trySpacesDigits rest with
          | some nd => some (alt.1.length + nd.1, nd.2)
          | none => none
      else
        match trySpacesDigits rest with
        | some nd => some (alt.1.length + nd.1, nd.2)
        | none => none
    | none => none
  else none

def tryVolMatch (prev : Option Char) (s : List Char) : Option (Nat × List Char) :=
  match volAltMarkers.findSome? (fun alt => tryVolAlt prev alt s) with
  | some r => some r
  | none =>
    match s with
    | '#' :: rest =>
      match trySpacesDigits rest with
      | some nd => some (1 + nd.1, nd.2)
      | none => none
    | _ => none

/-- `RE_VOL.findall`: all non-overlapping captures, left to right. -/
def volFindAllGo : Nat → Option Char → List Char → List (List Char)
  | 0, _, _ => []
  | _ + 1, _, [] => []
  | fuel + 1, prev, c :: rest =>
    match tryVolMatch prev (c :: rest) with
    | some nd =>
      nd.2 :: volFindAllGo fuel ((c :: rest).take nd.1).getLast? ((c :: rest).drop nd.1)
    | none => volFindAllGo fuel (some c) rest

/-- `re.search(r'\b(\d+)$', text.strip())`: the maximal trailing digit run,
accepted only if a word boundary precedes it. -/
def trailingNum (s : List Char) : Option (List Char) :=
  let st := stripWs s
  let rev := st.reverse
  let dsRev := rev.takeWhile Char.isDigit
  let restRev := rev.dropWhile Char.isDigit
  if dsRev.isEmpty then none
  else
    match restRev with
    | [] => some dsRev.reverse
    | c :: _ => if isWordChar c then none else some dsRev.reverse

/-- `extract_volume`, as a duplicate-free list standing for the Python set. -/
def extract_volume (text : String) : List String :=
  let l := text.toList
  let finds := volFindAllGo l.length none l
  let all :=
    match trailingNum l with
    | some ds => finds ++ [ds]
    | none => finds
  (all.map String.mk).dedup

/-! ### `match_author` -/

/-- The character class `[a-z0-9]` (literally: the split pattern is
`[^a-z0-9]+`, lower-case letters and digits only). -/
def isLowerAlnum (c : Char) : Bool :=
  ('a' ≤ c && c ≤ 'z') || ('0' ≤ c && c ≤ '9')

/-- `re.split(r'[^a-z0-9]+', s)`: pieces between separator runs, including
empty leading/trailing pieces, `[''']` on the empty string. -/
def splitNonAlnumGo : Nat → List Char → List (List Char)
  | 0, _ => [[]]
  | fuel + 1, s =>
    let tok := s.takeWhile isLowerAlnum
    let rest := s.dropWhile isLowerAlnum
    match rest with
    | [] => [tok]
    | _ :: _ => tok :: splitNonAlnumGo fuel (rest.dropWhile (fun c => !(isLowerAlnum c)))

def splitNonAlnum (s : List Char) : List (List Char) :=
  splitNonAlnumGo (s.length + 1) s

/-- Python `sep in s` substring test. -/
def strContains (hay needle : List Char) : Bool :=
  match hay with
  | [] => needle.isEmpty
  | _ :: rest => needle.isPrefixOf hay || strContains rest needle

/-- Python `s.split(',')`: pieces between single commas, empties kept. -/
def splitOnCommaGo : Nat → List Char → List (List Char)
  | 0, _ => [[]]
  | fuel + 1, s =>
    let tok := s.takeWhile (fun c => !(c == ','))
    let rest := s.dropWhile (fun c => !(c == ','))
    match rest with
    | [] => [tok]
    | _ :: rest2 => tok :: splitOnCommaGo fuel rest2

def splitOnComma (s : List Char) : List (List Char) :=
  splitOnCommaGo (s.length + 1) s

/-- `match_author(abs_authors, web_author)` from the source. -/
def match_author (abs_authors : List String) (web_author : String) : Bool :=
  if abs_authors.isEmpty || web_author.isEmpty then false
  else
    let web_clean := (splitOnComma web_author.toList).map (fun w => (stripWs w).map lowerChar)
    abs_authors.any (fun abs_auth =>
      let abs_clean := abs_auth.toList.map lowerChar
      web_clean.any (fun wa =>
        strContains wa abs_clean || strContains abs_clean wa ||
        (let a_tok := (splitNonAlnum abs_clean).dedup
         let wa_tok := (splitNonAlnum wa).dedup
         let common := (a_tok.inter wa_tok).length
         decide (2 ≤ common) || (common == 1 && a_tok.length == 1))))

/-! ### `moon_rating`

The five-slot moon bar.  Rating values are rationals standing for the
source's floats (`safe_float` has already been applied).  A slot is a full,
half or empty moon character. -/

inductive Slot where
  | full
  | half
  | empty
  deriving DecidableEq, Repr

/-- Python `int(v)`: truncation toward zero. -/
def intTrunc (v : ℚ) : ℤ :=
  if 0 ≤ v then ⌊v⌋ else -⌊-v⌋

/-- `moon_rating(v)`: `"🌕" * min(full, 5) + "🌗" * half`, left-justified to
five slots with `"🌑"` and truncated to five. -/
def moon_rating (v : ℚ) : List Slot :=
  if v = 0 then List.replicate 5 Slot.empty
  else
    let full0 := intTrunc v
    let dec : ℚ := v - (intTrunc v : ℤ)
    let fh : ℤ × ℕ :=
      if 3 / 4 ≤ dec then (full0 + 1, 0)
      else if 1 / 4 ≤ dec then (full0, 1)
      else (full0, 0)
    let base := List.replicate (min fh.1 5).toNat Slot.full ++ List.replicate fh.2 Slot.half
    (base ++ List.replicate (5 - base.length) Slot.empty).take 5

/-! ### `find_missing_asin`: the primary-catalog candidate ranker

A candidate is one parsed `productListItem` row that already has a
`data-asin` and a heading (rows without them are discarded before scoring).
`runtime = none` models a row without a `runtimeLabel` tag; `some d` a tag
whose text parsed to `d` seconds (possibly `0`).  `foundAuth = ""` models a
missing `authorLabel`.  The similarity `sim` stands for
`difflib.SequenceMatcher(None, a, b).ratio()`. -/

structure AudCandidate where
  asin : String
  foundTitle : String
  runtime : Option Nat
  foundAuth : String
  deriving DecidableEq, Repr

/-- Python truthiness of the library item's duration (float or `None`). -/
def durTruthy : Option ℚ → Bool
  | none => false
  | some d => !(d == 0)

inductive CandDecision where
  | acceptAuthor
  | acceptOverride
  | skip
  deriving DecidableEq, Repr

/-- The per-candidate body of the loop in `find_missing_asin`. -/
def candDecision (sim : String → String → ℚ) (title : String)
    (authors_list : List String) (duration : Option ℚ) (c : AudCandidate) :
    CandDecision :=
  let t_score := sim (pyLower title) (pyLower c.foundTitle)
  if t_score < 7 / 10 then .skip
  else
    let found_dur_sec : ℕ := match c.runtime with | none => 0 | some d => d
    let dur_match : Bool :=
      match c.runtime with
      | none => false
      | some d =>
        if 0 < d then durTruthy duration && decide (|duration.getD 0 - (d : ℚ)| < 300)
        else true
    let auth_match := match_author authors_list c.foundAuth
    if t_score > 7 / 10 && auth_match then
      if durTruthy duration && decide (0 < found_dur_sec) && !dur_match then .skip
      else .acceptAuthor
    else if t_score > 8 / 10 && dur_match && durTruthy duration then .acceptOverride
    else .skip

/-- The candidate loop: return the asin of the first non-skipped candidate,
in page order. -/
def find_missing_asin_select (sim : String → String → ℚ) (title : String)
    (authors_list : List String) (duration : Option ℚ) :
    List AudCandidate → Option String
  | [] => none
  | c :: cs =>
    match candDecision sim title authors_list duration c with
    | .skip => find_missing_asin_select sim title authors_list duration cs
    | _ => some c.asin

/-! ### `get_goodreads_data`: the secondary-catalog list ranker

One `tr` row of a search-results page, already holding a `bookTitle` link
(rows without one are discarded before scoring).  `foundAuth = ""` models a
missing `authorName` link. -/

structure GrRow where
  foundTitle : String
  href : String
  foundAuth : String
  deriving DecidableEq, Repr

/-- The row's title score: similarity of the comparison-normalized titles
plus the `+0.15` containment bonus. -/
def grRowScore (sim : String → String → ℚ) (norm_target : String) (r : GrRow) : ℚ :=
  let norm_found := normalize_title_text r.foundTitle
  let base := sim norm_target norm_found
  if (decide (3 < norm_target.length) && strContains norm_found.toList norm_target.toList) ||
     (decide (3 < norm_found.length) && strContains norm_target.toList norm_found.toList) then
    base + 15 / 100
  else base

/-- The volume-number veto guard `f_nums and t_nums and not f_nums & t_nums`. -/
def volVeto (foundTitle title : String) : Bool :=
  let f_nums := extract_volume foundTitle
  let t_nums := extract_volume title
  !f_nums.isEmpty && !t_nums.isEmpty && (f_nums.inter t_nums).isEmpty

/-- One iteration of the row loop: the accumulator is
`(best_score, best_url)`, started at `(0, none)`. -/
def grConsider (sim : String → String → ℚ) (title : String) (authors : List String)
    (acc : ℚ × Option String) (r : GrRow) : ℚ × Option String :=
  let t_score := grRowScore sim (normalize_title_text title) r
  if volVeto r.foundTitle title && t_score < 9 / 10 then acc
  else if !(match_author authors r.foundAuth) then acc
  else if t_score > 3 / 4 && t_score > acc.1 then (t_score, some r.href)
  else acc

/-- The whole row loop; `best_url` is returned (the source prefixes it with
the site origin before fetching it). -/
def grSelectBest (sim : String → String → ℚ) (title : String) (authors : List String)
    (rows : List GrRow) : Option String :=
  (rows.foldl (grConsider sim title authors) (0, none)).2

/-- Whether a row survives the veto and author checks (is able to update the
running best). -/
def grPasses (sim : String → String → ℚ) (title : String) (authors : List String)
    (r : GrRow) : Bool :=
  !(volVeto r.foundTitle title && grRowScore sim (normalize_title_text title) r < 9 / 10) &&
  match_author authors r.foundAuth

/-- Specification-side selection: the first-seen row attaining the maximum
score among surviving rows (earlier rows win ties). -/
def argFirstMax (score : GrRow → ℚ) : List GrRow → Option GrRow
  | [] => none
  | r :: rs =>
    match argFirstMax score rs with
    | none => some r
    | some b => if score b ≤ score r then some r else some b

/-- Specification-side ranker, written from the spec's words: filter the
survivors, take the first-seen maximum, return its link if the maximum
exceeds the acceptance threshold `0.75`. -/
def grSpecSelect (sim : String → String → ℚ) (title : String) (authors : List String)
    (rows : List GrRow) : Option String :=
  match argFirstMax (grRowScore sim (normalize_title_text title))
      (rows.filter (grPasses sim title authors)) with
  | none => none
  | some b =>
    if grRowScore sim (normalize_title_text title) b > 3 / 4 then some b.href else none

/-! ### `fetch_url` and the rate-limit signal -/

structure HttpResponse where
  status : Nat
  pageTitle : Option String
  deriving DecidableEq, Repr

/-- Outcome of `requests.get`: a transport-level exception or a response. -/
inductive FetchOutcome where
  | failure
  | response (r : HttpResponse)
  deriving DecidableEq, Repr

/-- The distinguished `RateLimitException`, with its `is_hard` flag. -/
structure RateLimitSignal where
  is_hard : Bool
  deriving DecidableEq, Repr

/-- `soup.title and "captcha" in soup.title.text.lower()`. -/
def titleHasCaptcha (r : HttpResponse) : Bool :=
  match r.pageTitle with
  | none => false
  | some t => strContains (pyLower t).toList (String.toList "captcha")

/-- `fetch_url`: raises (models as `Except.error`) for 429 (hard), 503/403
(soft), or a captcha title; re-raises `RateLimitException` past its own
generic handler; every other exception yields `(None, None)`, modelled as
`.ok none`; otherwise the parsed page is returned. -/
def fetch_url : FetchOutcome → Except RateLimitSignal (Option HttpResponse)
  | .failure => .ok none
  | .response r =>
    if r.status == 429 then .error ⟨true⟩
    else if r.status == 503 || r.status == 403 then .error ⟨false⟩
    else if titleHasCaptcha r then .error ⟨false⟩
    else .ok (some r)

/-- `scrape_search_result_fallback`: calls `fetch_url` inside a bare
`try/except: pass`, so any raised signal is swallowed and `None` is
returned; page extraction is the oracle `extract`. -/
def scrape_search_result_fallback {α : Type} (extract : HttpResponse → Option α)
    (o : FetchOutcome) : Option α :=
  match fetch_url o with
  | .error _ => none
  | .ok none => none
  | .ok (some r) => extract r

/-- `scrape_gr_details`: calls `fetch_url` unguarded, so a raised signal
propagates to the per-item caller; `if not soup: return None`. -/
def scrape_gr_details {α : Type} (extract : HttpResponse → Option α)
    (o : FetchOutcome) : Except RateLimitSignal (Option α) :=
  match fetch_url o with
  | .error e => .error e
  | .ok none => .ok none
  | .ok (some r) => .ok (extract r)

/-! ### The replacement-application block of the reconciler

The fragment of `process_library` that runs after a replacement search
produced `found` (lines "if found: if found != asin: ... else: keep").
`fetchA` is the `get_audible_data` oracle; the rating payload is abstracted
to its fields relevant here. -/

structure AudData where
  count : Nat
  metaLang : Option String
  deriving DecidableEq, Repr

/-- `LANGUAGE_MAP.get(raw.strip().lower(), raw)`. -/
def language_map_lookup (raw : String) : String :=
  let k := pyLower (String.mk (stripWs raw.toList))
  if k == "englisch" || k == "english" then "English"
  else if k == "deutsch" || k == "german" then "German"
  else raw

structure ReconcileState where
  asin : Option String
  lang : Option String
  aud_data : Option AudData
  newLangDetected : Option String
  asin_found : Nat
  asin_migrated : Nat
  patches : List String
  deriving DecidableEq, Repr

/-- `if found: if found != asin: patch; asin = found; counters += 1;
(language fix-up); aud_data = get_audible_data(asin, lang); re-detect
language; else: keep fallback data`. -/
def applyFoundAsin (dryRun targetIsGerman : Bool)
    (fetchA : String → Option String → Option AudData)
    (found : Option String) (st : ReconcileState) : ReconcileState :=
  match found with
  | none => st
  | some f =>
    if st.asin = some f then st
    else
      let patches := if dryRun then st.patches else st.patches ++ [f]
      let lang2 := if targetIsGerman then st.lang else some "English"
      let aud2 := fetchA f lang2
      let nld2 :=
        match aud2 with
        | some a =>
          match a.metaLang with
          | some l => if l.isEmpty then st.newLangDetected else some (language_map_lookup l)
          | none => st.newLangDetected
        | none => st.newLangDetected
      { asin := some f, lang := lang2, aud_data := aud2, newLangDetected := nld2,
        asin_found := st.asin_found + 1, asin_migrated := st.asin_migrated + 1,
        patches := patches }

/-! ### History / failure-counter bookkeeping per processed item -/

def MAX_FAIL_ATTEMPTS : ℕ := 5

/-- Per-item slice of the run-history and failure-counter maps: whether the
key is in `history` (committed, hence not due again before the refresh
interval) and its `failed` counter entry, if any. -/
structure ItemHistoryState where
  inHistory : Bool
  failCount : Option ℕ
  deriving DecidableEq, Repr

/-- The history block at the end of the per-item body:
`fails = failed.get(key, 0) + 1`; commit and clear the counter when both
sources delivered, or when `fails` reached `MAX_FAIL_ATTEMPTS`; otherwise
store the incremented counter. -/
def history_step (has_aud has_gr : Bool) (st : ItemHistoryState) : ItemHistoryState :=
  let fails := st.failCount.getD 0 + 1
  if has_aud && has_gr then { inHistory := true, failCount := none }
  else if MAX_FAIL_ATTEMPTS ≤ fails then { inHistory := true, failCount := none }
  else { inHistory := st.inHistory, failCount := some fails }

/-- The secondary-catalog result, abstracted to what the history logic
inspects (any non-`None` dict is truthy). -/
structure GrData where
  val : ℚ
  deriving DecidableEq, Repr

/-- `has_aud = bool(aud_data and int(aud_data.get('count', 0)) > 0)`. -/
def has_aud_of : Option AudData → Bool
  | none => false
  | some a => 0 < a.count

/-- `has_gr = bool(gr_data)`. -/
def has_gr_of : Option GrData → Bool
  | none => false
  | some _ => true

/-- One whole processing pass of an item, restricted to the history logic:
the adapters' results determine `has_aud` / `has_gr`, then the history block
runs.  The item's id does not enter this computation. -/
def item_history_update (aud_data : Option AudData) (gr_data : Option GrData)
    (st : ItemHistoryState) : ItemHistoryState :=
  history_step (has_aud_of aud_data) (has_gr_of gr_data) st

/-- The claim's completion policy, written from the spec's words: complete
iff (an id is present and both sources were found or recycled) or (no id and
the secondary source was found or recycled). -/
def specComplete (hasId primaryFoundOrRecycled secondaryFoundOrRecycled : Bool) : Bool :=
  (hasId && primaryFoundOrRecycled && secondaryFoundOrRecycled) ||
  (!hasId && secondaryFoundOrRecycled)

/-! ### Concrete inputs used by counterexamples and witnesses -/

/-- A similarity oracle reporting 0.95 for every pair (the claim's
"titleScore 0.95"). -/
def c1sim : String → String → ℚ := fun _ _ => 19 / 20

/-- A similarity oracle reporting 0 for every pair. -/
def c1simLow : String → String → ℚ := fun _ _ => 0

def c1title : String := "Series Book 3"

def c1row : GrRow :=
  { foundTitle := "Series, Vol. 10", href := "u1", foundAuth := "John Smith" }

def c2sim : String → String → ℚ := fun _ _ => 4 / 5

def c2title : String := "T"

def c2cand : AudCandidate :=
  { asin := "B0X", foundTitle := "T", runtime := some 4200, foundAuth := "Jane Doe" }

def c2candNear : AudCandidate :=
  { asin := "B0Y", foundTitle := "T", runtime := some 3720, foundAuth := "Jane Doe" }

/-- Similarity oracle scoring the second candidate's title far above the
first one's. -/
def c3sim : String → String → ℚ :=
  fun _ t => if t == "b" then 19 / 20 else 76 / 100

def c3title : String := "t"

def c3cand1 : AudCandidate :=
  { asin := "A1", foundTitle := "a", runtime := none, foundAuth := "Jane Doe" }

def c3cand2 : AudCandidate :=
  { asin := "A2", foundTitle := "b", runtime := none, foundAuth := "Jane Doe" }

def c3rowW : GrRow :=
  { foundTitle := "w", href := "w1", foundAuth := "Jane Doe" }

def c4gr : GrData := { val := 4 }

def c4aud : AudData := { count := 3, metaLang := none }

def c5resp429 : HttpResponse := { status := 429, pageTitle := none }

def c5resp503 : HttpResponse := { status := 503, pageTitle := none }

def c5resp403 : HttpResponse := { status := 403, pageTitle := none }

def c5respCaptcha : HttpResponse := { status := 200, pageTitle := some "Captcha Check" }

def c5extract : HttpResponse → Option Nat := fun r => some r.status

def c8input : String := "graphic-audio"

/-- Representative titles exercising format stripping, bracket removal,
subtitle punctuation, number words (both languages) and noise words. -/
def c8family : List String :=
  ["The Hobbit: Part One (Unabridged)",
   "Harry Potter und der Stein der Weisen - Band eins",
   "Mistborn Vol. 3",
   "Series Book 3",
   "Series, Vol. 10",
   "Foo [Dramatized Adaptation] Bar",
   "a vol. 1",
   "Der Wind: Teil zehn"]

def c9fetch : String → Option String → Option AudData :=
  fun _ _ => some { count := 9, metaLang := some "english" }

def c9st : ReconcileState :=
  { asin := some "B0A", lang := some "English",
    aud_data := some { count := 0, metaLang := none }, newLangDetected := none,
    asin_found := 2, asin_migrated := 1, patches := [] }

def c10sim : String → String → ℚ := fun _ _ => 9 / 10

def c10cand : AudCandidate :=
  { asin := "B0Y", foundTitle := "T", runtime := some 3600, foundAuth := "" }

/-! ### Shared helper lemmas -/

/-- An empty candidate author string never matches. -/
theorem match_author_no_web (l : List String) : match_author l "" = false := by
  have h : ("" : String).isEmpty = true := rfl
  simp [match_author, h]

/-- An empty local author list never matches. -/
theorem match_author_no_abs (w : String) : match_author [] w = false := by
  simp [match_author]

/-! ### C2 -/

/-- C2: the claim states a ±900 s duration tolerance; the code's window is
`abs(duration - found_dur_sec) < 300`.  A candidate whose duration differs
from the library item's by 600 s - well inside the claimed 15-minute
tolerance, and matching in title and author - is nevertheless skipped, while
a 120 s difference is accepted through the author path.  The code's own log
message for the skip says "duration differs > 15m", contradicting its own
constant. -/
theorem c2_duration_window :
    candDecision c2sim c2title ["Jane Doe"] (some 3600) c2cand =
      CandDecision.skip ∧
    |(3600 : ℚ) - 4200| < 900 ∧
    candDecision c2sim c2title ["Jane Doe"] (some 3600) c2candNear =
      CandDecision.acceptAuthor := by
  have hauthor :
      match_author ["Jane Doe"] "Jane Doe" = true := by decide
  refine ⟨?_, by norm_num, ?_⟩
  · unfold candDecision
    simp only [c2sim, c2cand, c2title, durTruthy]
    norm_num [hauthor]
  · unfold candDecision
    simp only [c2sim, c2candNear, c2title, durTruthy]
    norm_num [hauthor]

/-! ### C5 -/

/-- C5 counterexample: a fetch performed inside the primary adapter's
search-page fallback that hits HTTP 429 does raise the hard rate-limit
signal in `fetch_url`, but the fallback's bare exception handler swallows
it and returns `None` - the signal does not propagate out of the adapter,
refuting "it is never swallowed inside the adapter". -/
theorem c5_counterexample :
    fetch_url (FetchOutcome.response c5resp429) = Except.error ⟨true⟩ ∧
    scrape_search_result_fallback c5extract (FetchOutcome.response c5resp429) = none := by
  exact ⟨rfl, rfl⟩

/-- C5 (amended): `fetch_url` raises the distinguished signal - hard for
429, soft for 503/403 and for captcha-titled pages - and re-raises it past
its own generic handler, so it propagates from unguarded call sites such as
the secondary-catalog scraper; a transport failure yields `(None, None)`
without raising.  However, the primary adapter's search-page fallback
catches every exception and returns `None`, so a signal raised there is
swallowed instead of propagating. -/
theorem c5_rate_limit_signal :
    (∀ r : HttpResponse, r.status = 429 →
      fetch_url (FetchOutcome.response r) = Except.error ⟨true⟩) ∧
    (∀ r : HttpResponse, r.status = 503 ∨ r.status = 403 →
      fetch_url (FetchOutcome.response r) = Except.error ⟨false⟩) ∧
    (∀ r : HttpResponse, r.status ≠ 429 → r.status ≠ 503 → r.status ≠ 403 →
      titleHasCaptcha r = true →
      fetch_url (FetchOutcome.response r) = Except.error ⟨false⟩) ∧
    (∀ (extract : HttpResponse → Option Nat) (o : FetchOutcome) (e : RateLimitSignal),
      fetch_url o = Except.error e → scrape_gr_details extract o = Except.error e) ∧
    (∀ (extract : HttpResponse → Option Nat) (o : FetchOutcome) (e : RateLimitSignal),
      fetch_url o = Except.error e → scrape_search_result_fallback extract o = none) ∧
    fetch_url FetchOutcome.failure = Except.ok none := by
  refine ⟨?_, ?_, ?_, ?_, ?_, rfl⟩
  · intro r h
    simp [fetch_url, h]
  · intro r h
    rcases h with h | h <;> simp [fetch_url, h]
  · intro r h429 h503 h403 hc
    simp [fetch_url, h429, h503, h403, hc]
  · intro extract o e h
    simp [scrape_gr_details, h]
  · intro extract o e h
    simp [scrape_search_result_fallback, h]

/-- C5 witness: the amended theorem applied at explicit responses. -/
theorem c5_rate_limit_signal_witness :
    fetch_url (FetchOutcome.response c5resp429) = Except.error ⟨true⟩ ∧
    fetch_url (FetchOutcome.response c5resp503) = Except.error ⟨false⟩ ∧
    fetch_url (FetchOutcome.response c5resp403) = Except.error ⟨false⟩ ∧
    fetch_url (FetchOutcome.response c5respCaptcha) = Except.error ⟨false⟩ ∧
    scrape_gr_details c5extract (FetchOutcome.response c5resp503) = Except.error ⟨false⟩ ∧
    scrape_search_result_fallback c5extract (FetchOutcome.response c5resp503) = none :=
  ⟨c5_rate_limit_signal.1 c5resp429 rfl,
   c5_rate_limit_signal.2.1 c5resp503 (Or.inl rfl),
   c5_rate_limit_signal.2.1 c5resp403 (Or.inr rfl),
   c5_rate_limit_signal.2.2.1 c5respCaptcha (by decide) (by decide) (by decide) (by decide),
   c5_rate_limit_signal.2.2.2.1 c5extract (FetchOutcome.response c5resp503) ⟨false⟩
     (c5_rate_limit_signal.2.1 c5resp503 (Or.inl rfl)),
   c5_rate_limit_signal.2.2.2.2.1 c5extract (FetchOutcome.response c5resp503) ⟨false⟩
     (c5_rate_limit_signal.2.1 c5resp503 (Or.inl rfl))⟩

/-! ### C6 -/

/-- C6: an item whose adapters always return empty is committed to history
with its failure counter removed on exactly the fifth processing pass:
after passes 1-4 it is still uncommitted with counters 1-4, after pass 5 it
is in history and the counter entry is gone, with
`MAX_FAIL_ATTEMPTS = 5`. -/
theorem c6_cooldown_exactly_five :
    MAX_FAIL_ATTEMPTS = 5 ∧
    Nat.iterate (item_history_update none none) 1 ⟨false, none⟩ =
      ⟨false, some 1⟩ ∧
    Nat.iterate (item_history_update none none) 2 ⟨false, none⟩ =
      ⟨false, some 2⟩ ∧
    Nat.iterate (item_history_update none none) 3 ⟨false, none⟩ =
      ⟨false, some 3⟩ ∧
    Nat.iterate (item_history_update none none) 4 ⟨false, none⟩ =
      ⟨false, some 4⟩ ∧
    Nat.iterate (item_history_update none none) 5 ⟨false, none⟩ =
      ⟨true, none⟩ := by
  refine ⟨rfl, by decide, by decide, by decide, by decide, by decide⟩

/-! ### C8 -/

/-- C8 counterexample: the comparison normalizer is not idempotent.  On
"graphic-audio" the first pass rewrites the hyphen to a space, assembling
the multi-word format phrase "graphic audio", which only the second pass
then strips to the empty string. -/
theorem c8_counterexample :
    normalize_title_text c8input = "graphic audio" ∧
    normalize_title_text (normalize_title_text c8input) = "" ∧
    normalize_title_text (normalize_title_text c8input) ≠
      normalize_title_text c8input := by
  refine ⟨by decide, by decide, by decide⟩

/-- C8 (amended): the normalizer is not idempotent in general - a second
application can additionally strip a multi-word format phrase ("graphic
audio", "dramatized adaptation") that the first pass assembled by rewriting
a separator to a space.  Away from that phrase-reassembly case a second
application leaves the result unchanged, verified here on a family of
representative titles exercising every stage of the pipeline. -/
theorem c8_idempotent_on_family :
    c8family.all
      (fun t => normalize_title_text (normalize_title_text t) == normalize_title_text t) =
      true := by
  decide

/-! ### C9 -/

/-- C9: when the replacement search returns the id already stored on the
item, the reconciler block leaves the whole state unchanged: no patch is
issued, neither migration counter moves, and the lookup data already in
hand is kept. -/
theorem c9_loop_prevention (dryRun targetIsGerman : Bool)
    (fetchA : String → Option String → Option AudData) (f : String)
    (st : ReconcileState) (h : st.asin = some f) :
    applyFoundAsin dryRun targetIsGerman fetchA (some f) st = st := by
  simp [applyFoundAsin, h]

/-- C9 witness: the theorem applied to a concrete state holding id "B0A"
when the search returns "B0A" again. -/
theorem c9_loop_prevention_witness :
    c9st.asin = some "B0A" ∧
    applyFoundAsin false false c9fetch (some "B0A") c9st = c9st :=
  ⟨rfl, c9_loop_prevention false false c9fetch _ c9st rfl⟩

/-! ### C10 -/

/-- C10: author matching returns `False` whenever the local author list or
the candidate author string is empty; hence a candidate with no displayed
author can never be accepted through the author path of the ranker - if it
is accepted at all, it is through the relaxed title-plus-duration override
path. -/
theorem c10_empty_author :
    (∀ l : List String, match_author l "" = false) ∧
    (∀ w : String, match_author [] w = false) ∧
    (∀ (sim : String → String → ℚ) (title : String) (authors : List String)
       (duration : Option ℚ) (c : AudCandidate), c.foundAuth = "" →
       candDecision sim title authors duration c ≠ CandDecision.acceptAuthor) := by
  refine ⟨match_author_no_web, match_author_no_abs, ?_⟩
  intro sim title authors duration c hc
  unfold candDecision
  rw [hc, match_author_no_web]
  repeat' split
  all_goals solve
  | simp_all
  | (dsimp only
     split
     · simp
     · split
       · simp_all
       · split <;> simp)

/-- C10 witness: the theorem applied at an authorless concrete candidate
(and at empty author inputs). -/
theorem c10_empty_author_witness :
    match_author ["Jane Doe"] "" = false ∧
    match_author [] "x" = false ∧
    (c10cand.foundAuth = "" ∧
      candDecision c10sim c2title ["Jane Doe"] (some 3600) c10cand ≠
        CandDecision.acceptAuthor) :=
  ⟨c10_empty_author.1 _, c10_empty_author.2.1 _,
   rfl, c10_empty_author.2.2 c10sim c2title _ (some 3600) c10cand rfl⟩

/-! ### C1 -/

/-- C1 counterexample: the volume-number veto is not unconditional.  For
local title "Series Book 3" and candidate "Series, Vol. 10" the extracted
volume sets are non-empty and disjoint, yet with titleScore 0.95 the row is
not rejected - the row-loop selects it, because the veto only fires when
the title score is below 0.9. -/
theorem c1_claim_counterexample :
    volVeto c1row.foundTitle c1title = true ∧
    grRowScore c1sim (normalize_title_text c1title) c1row = 19 / 20 ∧
    grSelectBest c1sim c1title ["John Smith"] [c1row] =
      some "u1" := by
  have hm : match_author ["John Smith"] c1row.foundAuth = true := by
    decide
  have hs : grRowScore c1sim (normalize_title_text c1title) c1row = 19 / 20 := by
    unfold grRowScore
    dsimp only
    rw [if_neg (by decide)]
    rfl
  refine ⟨by decide, hs, ?_⟩
  unfold grSelectBest
  simp only [List.foldl]
  unfold grConsider
  dsimp only
  rw [hs]
  rw [if_neg (by simp only [show volVeto c1row.foundTitle c1title = true from by decide,
      Bool.true_and, decide_eq_true_eq]; norm_num),
    if_neg (by simp [hm]),
    if_pos (by simp only [Bool.and_eq_true, decide_eq_true_eq]; norm_num)]
  rfl

/-- C1 (amended): the volume-number veto is conditional on the title score:
a candidate whose extracted volume set is non-empty and disjoint from the
local title's is skipped (leaves the running best untouched) exactly when
its title score - containment bonus included - is below 0.9; at or above
0.9 (for example 0.95) the veto is overridden and the candidate proceeds to
the author check and threshold comparison. -/
theorem c1_veto_only_below_090 (sim : String → String → ℚ) (title : String)
    (authors : List String) (acc : ℚ × Option String) (r : GrRow)
    (hveto : volVeto r.foundTitle title = true)
    (hscore : grRowScore sim (normalize_title_text title) r < 9 / 10) :
    grConsider sim title authors acc r = acc := by
  unfold grConsider
  dsimp only
  rw [if_pos]
  rw [hveto]
  simpa using hscore

/-- C1 witness: the amended theorem applied to the disjoint-volume pair at
similarity 0, where the veto does fire and the accumulator is unchanged. -/
theorem c1_veto_only_below_090_witness :
    volVeto c1row.foundTitle c1title = true ∧
    grRowScore c1simLow (normalize_title_text c1title) c1row < 9 / 10 ∧
    grConsider c1simLow c1title ["John Smith"]
      (0, none) c1row = (0, none) := by
  have hsc : grRowScore c1simLow (normalize_title_text c1title) c1row < 9 / 10 := by
    have h : grRowScore c1simLow (normalize_title_text c1title) c1row = 0 := by
      unfold grRowScore
      dsimp only
      rw [if_neg (by decide)]
      rfl
    rw [h]
    norm_num
  exact ⟨by decide, hsc,
    c1_veto_only_below_090 c1simLow c1title _ (0, none) c1row (by decide) hsc⟩

/-! ### C4 -/

/-- C4 counterexample: the claimed completion policy says an item with no id
whose secondary source was found is complete.  In the code, an item with no
id (the primary adapter returns `None` for a missing asin) and a fresh
secondary result is NOT committed early: the history block increments the
failure counter to 1 and leaves the item out of history, because the commit
condition is `has_aud and has_gr` and `has_aud` is false. -/
theorem c4_claim_counterexample :
    specComplete false false true = true ∧
    has_aud_of none = false ∧
    has_gr_of (some { val := 4 }) = true ∧
    item_history_update none (some { val := 4 }) { inHistory := false, failCount := none } =
      { inHistory := false, failCount := some 1 } := by
  refine ⟨rfl, rfl, rfl, by decide⟩

/-- C4 (amended): before the failure counter reaches `MAX_FAIL_ATTEMPTS`,
an item is recorded as complete - committed to history with its counter
entry removed - exactly when the fresh primary result has a positive vote
count and the fresh secondary result is present.  Whether the item has an
id plays no role, and recycled description blocks do not count towards
completion. -/
theorem c4_completion_is_both_fresh (aud : Option AudData) (gr : Option GrData)
    (st : ItemHistoryState) (h : st.failCount.getD 0 + 1 < MAX_FAIL_ATTEMPTS) :
    ((item_history_update aud gr st).failCount = none ↔
      (has_aud_of aud && has_gr_of gr) = true) ∧
    ((has_aud_of aud && has_gr_of gr) = true →
      (item_history_update aud gr st).inHistory = true) := by
  unfold item_history_update history_step
  constructor
  · constructor
    · intro hc
      by_contra hng
      rw [if_neg hng, if_neg (by omega)] at hc
      exact Option.some_ne_none _ hc
    · intro hb
      rw [if_pos hb]
  · intro hb
    rw [if_pos hb]

/-- C4 witness: the amended theorem applied to a first-pass item whose
primary result has 3 votes and whose secondary result is present. -/
theorem c4_completion_is_both_fresh_witness :
    (⟨false, none⟩ : ItemHistoryState).failCount.getD 0 + 1 < MAX_FAIL_ATTEMPTS ∧
    (((item_history_update (some c4aud) (some c4gr) ⟨false, none⟩).failCount = none ↔
        (has_aud_of (some c4aud) && has_gr_of (some c4gr)) = true) ∧
      ((has_aud_of (some c4aud) && has_gr_of (some c4gr)) = true →
        (item_history_update (some c4aud) (some c4gr) ⟨false, none⟩).inHistory = true)) :=
  ⟨by decide, c4_completion_is_both_fresh (some c4aud) (some c4gr) ⟨false, none⟩ (by decide)⟩

/-! ### C7 -/

/-- Helper: slot counts of a bar of `a` full moons and `b` half moons,
left-justified with empty moons to five slots. -/
theorem count_bar (a b : ℕ) (hab : a + b ≤ 5) :
    (((List.replicate a Slot.full ++ List.replicate b Slot.half) ++
        List.replicate
          (5 - (List.replicate a Slot.full ++ List.replicate b Slot.half).length)
          Slot.empty).take 5).count Slot.full = a ∧
    (((List.replicate a Slot.full ++ List.replicate b Slot.half) ++
        List.replicate
          (5 - (List.replicate a Slot.full ++ List.replicate b Slot.half).length)
          Slot.empty).take 5).count Slot.half = b ∧
    (((List.replicate a Slot.full ++ List.replicate b Slot.half) ++
        List.replicate
          (5 - (List.replicate a Slot.full ++ List.replicate b Slot.half).length)
          Slot.empty).take 5).count Slot.empty = 5 - a - b := by
  have hlen : (List.replicate a Slot.full ++ List.replicate b Slot.half).length = a + b := by
    simp
  have hfull : ((List.replicate a Slot.full ++ List.replicate b Slot.half) ++
      List.replicate
        (5 - (List.replicate a Slot.full ++ List.replicate b Slot.half).length)
        Slot.empty).length = 5 := by
    simp only [List.length_append, hlen, List.length_replicate]
    omega
  rw [List.take_of_length_le (le_of_eq hfull)]
  refine ⟨?_, ?_, ?_⟩
  · simp [List.count_append, List.count_replicate]
  · simp [List.count_append, List.count_replicate]
  · simp only [List.count_append, List.count_replicate, hlen]
    simp
    omega

/-- C7: for positive ratings up to 5, the moon bar shows
`full = floor(v)` full slots, one more full slot when the fractional part
is at least 0.75, and a half slot exactly when the fractional part lies in
[0.25, 0.75); the remaining slots are empty.  The claim's concrete cases:
4.0 gives 4 full and 0 half, 4.3 gives 4 full and 1 half, 4.8 gives 5 full
and 0 half, and 0 gives five empty slots. -/
theorem c7_moon_bar :
    (∀ v : ℚ, 0 < v → v ≤ 5 →
      (moon_rating v).count Slot.full =
        (⌊v⌋ + if 3 / 4 ≤ v - ⌊v⌋ then 1 else 0).toNat ∧
      (moon_rating v).count Slot.half =
        (if 1 / 4 ≤ v - ⌊v⌋ ∧ v - ⌊v⌋ < 3 / 4 then 1 else 0) ∧
      (moon_rating v).count Slot.full + (moon_rating v).count Slot.half +
        (moon_rating v).count Slot.empty = 5) ∧
    (moon_rating 4).count Slot.full = 4 ∧ (moon_rating 4).count Slot.half = 0 ∧
    (moon_rating (43 / 10)).count Slot.full = 4 ∧
    (moon_rating (43 / 10)).count Slot.half = 1 ∧
    (moon_rating (48 / 10)).count Slot.full = 5 ∧
    (moon_rating (48 / 10)).count Slot.half = 0 ∧
    moon_rating 0 = List.replicate 5 Slot.empty := by
  have main : ∀ v : ℚ, 0 < v → v ≤ 5 →
      (moon_rating v).count Slot.full =
        (⌊v⌋ + if 3 / 4 ≤ v - ⌊v⌋ then 1 else 0).toNat ∧
      (moon_rating v).count Slot.half =
        (if 1 / 4 ≤ v - ⌊v⌋ ∧ v - ⌊v⌋ < 3 / 4 then 1 else 0) ∧
      (moon_rating v).count Slot.full + (moon_rating v).count Slot.half +
        (moon_rating v).count Slot.empty = 5 := by
    intro v hv h5
    have hvne : ¬v = 0 := ne_of_gt hv
    have htr : intTrunc v = ⌊v⌋ := by simp [intTrunc, le_of_lt hv]
    have hfl : (⌊v⌋ : ℚ) ≤ v := Int.floor_le v
    have hlt : v < ⌊v⌋ + 1 := Int.lt_floor_add_one v
    have hn0 : 0 ≤ ⌊v⌋ := Int.floor_nonneg.mpr (le_of_lt hv)
    have hn5 : ⌊v⌋ ≤ 5 := by
      have h : (⌊v⌋ : ℚ) ≤ 5 := le_trans hfl h5
      exact_mod_cast h
    unfold moon_rating
    rw [if_neg hvne]
    dsimp only
    rw [htr]
    by_cases h34 : (3 : ℚ) / 4 ≤ v - ⌊v⌋
    · rw [if_pos h34]
      dsimp only
      have hn4 : ⌊v⌋ ≤ 4 := by
        by_contra hc
        push_neg at hc
        have h5le : (5 : ℚ) ≤ (⌊v⌋ : ℚ) := by exact_mod_cast hc
        linarith
      have hmin : min (⌊v⌋ + 1) 5 = ⌊v⌋ + 1 := min_eq_left (by omega)
      rw [hmin]
      obtain ⟨h1, h2, h3⟩ := count_bar (⌊v⌋ + 1).toNat 0 (by omega)
      refine ⟨?_, ?_, ?_⟩
      · rw [h1, if_pos h34]
      · rw [h2, if_neg]
        rintro ⟨-, hlt34⟩
        linarith
      · rw [h1, h2, h3]
        omega
    · rw [if_neg h34]
      by_cases h14 : (1 : ℚ) / 4 ≤ v - ⌊v⌋
      · rw [if_pos h14]
        dsimp only
        have hn4 : ⌊v⌋ ≤ 4 := by
          by_contra hc
          push_neg at hc
          have h5le : (5 : ℚ) ≤ (⌊v⌋ : ℚ) := by exact_mod_cast hc
          linarith
        have hmin : min ⌊v⌋ 5 = ⌊v⌋ := min_eq_left (by omega)
        rw [hmin]
        obtain ⟨h1, h2, h3⟩ := count_bar ⌊v⌋.toNat 1 (by omega)
        refine ⟨?_, ?_, ?_⟩
        · rw [h1, if_neg h34]
          omega
        · rw [h2, if_pos ⟨h14, by linarith⟩]
        · rw [h1, h2, h3]
          omega
      · rw [if_neg h14]
        dsimp only
        have hmin : min ⌊v⌋ 5 = ⌊v⌋ := min_eq_left (by omega)
        rw [hmin]
        obtain ⟨h1, h2, h3⟩ := count_bar ⌊v⌋.toNat 0 (by omega)
        refine ⟨?_, ?_, ?_⟩
        · rw [h1, if_neg h34]
          omega
        · rw [h2, if_neg]
          rintro ⟨h14a, -⟩
          exact h14 h14a
        · rw [h1, h2, h3]
          omega
  have hf4 : ⌊(4 : ℚ)⌋ = 4 := by norm_num
  have hf43 : ⌊(43 / 10 : ℚ)⌋ = 4 := by
    rw [Int.floor_eq_iff]
    norm_num
  have hf48 : ⌊(48 / 10 : ℚ)⌋ = 4 := by
    rw [Int.floor_eq_iff]
    norm_num
  obtain ⟨e1, e2, -⟩ := main 4 (by norm_num) (by norm_num)
  obtain ⟨e3, e4, -⟩ := main (43 / 10) (by norm_num) (by norm_num)
  obtain ⟨e5, e6, -⟩ := main (48 / 10) (by norm_num) (by norm_num)
  rw [hf4] at e1 e2
  rw [hf43] at e3 e4
  rw [hf48] at e5 e6
  norm_num at e1 e2 e3 e4 e5 e6
  refine ⟨main, e1, e2, e3, e4, ?_, ?_, by simp [moon_rating]⟩
  · rw [show (48 / 10 : ℚ) = 24 / 5 by norm_num]
    simpa using e5
  · rw [show (48 / 10 : ℚ) = 24 / 5 by norm_num]
    simpa using e6

/-- C7 witness: the characterization applied at the concrete rating 4.3. -/
theorem c7_moon_bar_witness :
    0 < (43 / 10 : ℚ) ∧ (43 / 10 : ℚ) ≤ 5 ∧
    ((moon_rating (43 / 10)).count Slot.full =
        (⌊(43 / 10 : ℚ)⌋ + if 3 / 4 ≤ (43 / 10 : ℚ) - ⌊(43 / 10 : ℚ)⌋ then 1 else 0).toNat ∧
      (moon_rating (43 / 10)).count Slot.half =
        (if 1 / 4 ≤ (43 / 10 : ℚ) - ⌊(43 / 10 : ℚ)⌋ ∧
            (43 / 10 : ℚ) - ⌊(43 / 10 : ℚ)⌋ < 3 / 4 then 1 else 0) ∧
      (moon_rating (43 / 10)).count Slot.full + (moon_rating (43 / 10)).count Slot.half +
        (moon_rating (43 / 10)).count Slot.empty = 5) :=
  ⟨by norm_num, by norm_num, c7_moon_bar.1 (43 / 10) (by norm_num) (by norm_num)⟩

/-! ### C3 -/

/-- Helper: one row-loop iteration in branch-free form - the accumulator is
updated exactly when the row survives the veto and author checks and its
score exceeds both the acceptance threshold and the running best. -/
theorem grConsider_eq (sim : String → String → ℚ) (title : String)
    (authors : List String) (acc : ℚ × Option String) (r : GrRow) :
    grConsider sim title authors acc r =
      if grPasses sim title authors r = true ∧
          grRowScore sim (normalize_title_text title) r > 3 / 4 ∧
          grRowScore sim (normalize_title_text title) r > acc.1 then
        (grRowScore sim (normalize_title_text title) r, some r.href)
      else acc := by
  unfold grConsider grPasses
  dsimp only
  by_cases h1 : (volVeto r.foundTitle title &&
      decide (grRowScore sim (normalize_title_text title) r < 9 / 10)) = true
  · rw [if_pos h1, if_neg]
    rintro ⟨hp, -, -⟩
    simp only [Bool.and_eq_true, Bool.not_eq_true'] at hp
    rw [h1] at hp
    exact Bool.noConfusion hp.1
  · rw [if_neg h1]
    by_cases h2 : match_author authors r.foundAuth = true
    · rw [if_neg (by simp [h2])]
      by_cases h3 : grRowScore sim (normalize_title_text title) r > 3 / 4 ∧
          grRowScore sim (normalize_title_text title) r > acc.1
      · rw [if_pos (by simp only [Bool.and_eq_true, decide_eq_true_eq]; exact h3),
          if_pos ⟨by simp [Bool.and_eq_true, Bool.not_eq_true', h1, h2], h3.1, h3.2⟩]
      · rw [if_neg (by simp only [Bool.and_eq_true, decide_eq_true_eq]; exact h3),
          if_neg (fun hc => h3 ⟨hc.2.1, hc.2.2⟩)]
    · rw [if_pos (by simp [Bool.not_eq_true] at h2 ⊢; exact h2), if_neg]
      rintro ⟨hp, -, -⟩
      simp only [Bool.and_eq_true] at hp
      exact h2 hp.2

/-- Helper: the defining equation of `argFirstMax` on a non-empty list. -/
theorem argFirstMax_cons (score : GrRow → ℚ) (r : GrRow) (l : List GrRow) :
    argFirstMax score (r :: l) =
      match argFirstMax score l with
      | none => some r
      | some b => if score b ≤ score r then some r else some b := rfl

/-- Helper: the whole row loop computes the first-seen maximum.  Folding
`grConsider` from an accumulator `(s, u)` yields the first-seen maximum row
among survivors when its score beats both the threshold and `s`, and the
start accumulator otherwise. -/
theorem grFold_firstMax (sim : String → String → ℚ) (title : String)
    (authors : List String) (rows : List GrRow) :
    ∀ (s : ℚ) (u : Option String),
      rows.foldl (grConsider sim title authors) (s, u) =
        match argFirstMax (grRowScore sim (normalize_title_text title))
            (rows.filter (grPasses sim title authors)) with
        | none => (s, u)
        | some b =>
          if grRowScore sim (normalize_title_text title) b > 3 / 4 ∧
              grRowScore sim (normalize_title_text title) b > s then
            (grRowScore sim (normalize_title_text title) b, some b.href)
          else (s, u) := by
  induction rows with
  | nil => intro s u; rfl
  | cons r rs ih =>
    intro s u
    rw [List.foldl_cons, grConsider_eq]
    by_cases hp : grPasses sim title authors r = true
    · rw [List.filter_cons_of_pos hp]
      by_cases hcond : grRowScore sim (normalize_title_text title) r > 3 / 4 ∧
          grRowScore sim (normalize_title_text title) r > s
      · rw [if_pos ⟨hp, hcond⟩, ih, argFirstMax_cons]
        cases hM : argFirstMax (grRowScore sim (normalize_title_text title))
            (rs.filter (grPasses sim title authors)) with
        | none =>
          dsimp only
          rw [if_pos hcond]
        | some b =>
          dsimp only
          by_cases hble : grRowScore sim (normalize_title_text title) b ≤
              grRowScore sim (normalize_title_text title) r
          · rw [if_neg (fun hc => absurd hc.2 (not_lt.mpr hble)), if_pos hble]
            dsimp only
            rw [if_pos hcond]
          · push_neg at hble
            rw [if_pos ⟨lt_trans hcond.1 hble, hble⟩, if_neg (not_le.mpr hble)]
            dsimp only
            rw [if_pos ⟨lt_trans hcond.1 hble, lt_trans hcond.2 hble⟩]
      · rw [if_neg (fun hc => hcond hc.2), ih, argFirstMax_cons]
        cases hM : argFirstMax (grRowScore sim (normalize_title_text title))
            (rs.filter (grPasses sim title authors)) with
        | none =>
          dsimp only
          rw [if_neg hcond]
        | some b =>
          dsimp only
          by_cases hble : grRowScore sim (normalize_title_text title) b ≤
              grRowScore sim (normalize_title_text title) r
          · rw [if_neg, if_pos hble]
            · dsimp only
              rw [if_neg hcond]
            · rintro ⟨hb34, hbs⟩
              exact hcond ⟨lt_of_lt_of_le hb34 hble, lt_of_lt_of_le hbs hble⟩
          · push_neg at hble
            rw [if_neg (not_le.mpr hble)]
    · rw [if_neg (fun hc => hp hc.1), List.filter_cons_of_neg hp, ih]

/-- Helper: the author strings of the C3 scenario match. -/
theorem c3auth : match_author ["Jane Doe"] "Jane Doe" = true := by decide

/-- Helper: lower-casings of the C3 scenario's strings. -/
theorem c3py_title : pyLower c3title = "t" := by decide

theorem c3py1 : pyLower c3cand1.foundTitle = "a" := by decide

theorem c3py2 : pyLower c3cand2.foundTitle = "b" := by decide

/-- Helper: the similarity oracle's values on the two candidates. -/
theorem c3sim_val1 : c3sim "t" "a" = 76 / 100 := by
  unfold c3sim
  rw [if_neg (by decide)]

theorem c3sim_val2 : c3sim "t" "b" = 19 / 20 := by
  unfold c3sim
  rw [if_pos (by decide)]

/-- Helper: both C3 candidates are accepted through the author path. -/
theorem c3dec1 : candDecision c3sim c3title ["Jane Doe"] none c3cand1 =
    CandDecision.acceptAuthor := by
  unfold candDecision
  rw [c3py_title, c3py1, c3sim_val1, if_neg (by norm_num)]
  simp only [c3cand1, durTruthy, Bool.and_eq_true, decide_eq_true_eq]
  norm_num [c3auth]

theorem c3dec2 : candDecision c3sim c3title ["Jane Doe"] none c3cand2 =
    CandDecision.acceptAuthor := by
  unfold candDecision
  rw [c3py_title, c3py2, c3sim_val2, if_neg (by norm_num)]
  simp only [c3cand2, durTruthy, Bool.and_eq_true, decide_eq_true_eq]
  norm_num [c3auth]

/-- C3 counterexample: the primary-catalog replacement search does not keep
a maximum - it returns the first candidate that passes its filters.  Here
the first candidate (score 0.76) is returned even though the second
candidate also passes and scores 0.95. -/
theorem c3_claim_counterexample :
    find_missing_asin_select c3sim c3title ["Jane Doe"] none [c3cand1, c3cand2] =
      some "A1" ∧
    c3sim (pyLower c3title) (pyLower c3cand1.foundTitle) <
      c3sim (pyLower c3title) (pyLower c3cand2.foundTitle) ∧
    candDecision c3sim c3title ["Jane Doe"] none c3cand2 ≠ CandDecision.skip := by
  refine ⟨?_, ?_, ?_⟩
  · unfold find_missing_asin_select
    rw [c3dec1]
    rfl
  · rw [c3py_title, c3py1, c3py2, c3sim_val1, c3sim_val2]
    norm_num
  · rw [c3dec2]
    simp

/-- C3 (amended): the two rankers behave differently.  The secondary
catalog's row loop does keep the maximum: it returns exactly the link of
the first-seen row attaining the maximum score among the rows surviving the
veto and author checks, provided that maximum exceeds the 0.75 threshold,
and `None` otherwise - ties are broken by input order, and a later
higher-scoring row displaces an earlier lower-scoring one.  The primary
catalog's replacement search instead returns the id of the first candidate
in page order that passes its per-candidate filters, with no comparison of
scores across candidates. -/
theorem c3_first_seen_maximum :
    (∀ (sim : String → String → ℚ) (title : String) (authors : List String)
       (rows : List GrRow),
      grSelectBest sim title authors rows = grSpecSelect sim title authors rows) ∧
    (∀ (sim : String → String → ℚ) (title : String) (authors : List String)
       (duration : Option ℚ) (c : AudCandidate) (cs : List AudCandidate),
      candDecision sim title authors duration c ≠ CandDecision.skip →
      find_missing_asin_select sim title authors duration (c :: cs) = some c.asin) := by
  constructor
  · intro sim title authors rows
    unfold grSelectBest grSpecSelect
    rw [grFold_firstMax]
    cases hM : argFirstMax (grRowScore sim (normalize_title_text title))
        (rows.filter (grPasses sim title authors)) with
    | none => rfl
    | some b =>
      dsimp only
      by_cases hb : grRowScore sim (normalize_title_text title) b > 3 / 4
      · rw [if_pos ⟨hb, lt_trans (by norm_num) hb⟩, if_pos hb]
      · rw [if_neg (fun hc => hb hc.1), if_neg hb]
  · intro sim title authors duration c cs hc
    unfold find_missing_asin_select
    cases hd : candDecision sim title authors duration c with
    | acceptAuthor => rfl
    | acceptOverride => rfl
    | skip => exact absurd hd hc

/-- C3 witness: the amended theorem applied to a concrete row list and to a
concrete accepted candidate. -/
theorem c3_first_seen_maximum_witness :
    grSelectBest c3sim c3title ["Jane Doe"] [c3rowW] =
      grSpecSelect c3sim c3title ["Jane Doe"] [c3rowW] ∧
    (candDecision c3sim c3title ["Jane Doe"] none c3cand1 ≠ CandDecision.skip ∧
      find_missing_asin_select c3sim c3title ["Jane Doe"] none [c3cand1, c3cand2] =
        some c3cand1.asin) := by
  have hne : candDecision c3sim c3title ["Jane Doe"] none c3cand1 ≠
      CandDecision.skip := by
    rw [c3dec1]
    simp
  exact ⟨c3_first_seen_maximum.1 c3sim c3title ["Jane Doe"] [c3rowW],
    hne, c3_first_seen_maximum.2 c3sim c3title ["Jane Doe"] none c3cand1 [c3cand2] hne⟩
